import Mathlib

/-!
Shallow embedding of the License & Feature-Gate core of the random-memo-app
repository (src/main/license/LicenseService.ts and
src/shared/license/FeatureGate.ts).  TypeScript classes become explicit
state records; async methods become pure functions threading that state;
thrown errors become `Except` values; the injected `DatabaseService`
(`getMemoCount`, `healthCheck`) and the OS environment are passed in as
explicit inputs.
-/

namespace RandomMemo

/-- Decidable equality for `Except`, so that concrete runs of the embedded
operations can be checked by `decide`. -/
instance instDecEqExcept {ε α : Type} [DecidableEq ε] [DecidableEq α] :
    DecidableEq (Except ε α) := fun x y =>
  match x, y with
  | .ok a, .ok b =>
    if h : a = b then .isTrue (by rw [h]) else .isFalse (by simp [h])
  | .error e, .error f =>
    if h : e = f then .isTrue (by rw [h]) else .isFalse (by simp [h])
  | .ok _, .error _ => .isFalse (by simp)
  | .error _, .ok _ => .isFalse (by simp)

/-- Error codes of `LicenseErrorCode` in LicenseService.ts. -/
inductive LicenseErrorCode where
  | INVALID_LICENSE_KEY
  | LICENSE_EXPIRED
  | DEVICE_LIMIT_EXCEEDED
  | MEMO_LIMIT_EXCEEDED
  | NETWORK_ERROR
  | STORAGE_ERROR
  | DATABASE_ERROR
  | FEATURE_NOT_AVAILABLE
  | SERVICE_NOT_INITIALIZED
  deriving DecidableEq, Repr

/-- `LicenseError` : a structured error carrying a code and a message. -/
structure LicenseError where
  code : LicenseErrorCode
  message : String
  deriving DecidableEq, Repr

/-- The `License` record of shared/types.ts: current licensing state of the
device.  Timestamps are modelled as integers (milliseconds). -/
structure License where
  licenseKey : Option String
  licenseType : String
  activationDate : Option Int
  lastVerification : Option Int
  gracePeriodStart : Option Int
  deviceId : String
  isValid : Bool
  daysUntilExpiry : Option Int
  deriving DecidableEq, Repr

/-- `LicenseLimits`: limits derived from the license tier. -/
structure LicenseLimits where
  maxMemos : Int
  maxConcurrentMemos : Int
  featuresEnabled : List String
  deriving DecidableEq, Repr

/-- `FeatureAvailability` record returned by feature checks. -/
structure FeatureAvailability where
  feature : String
  available : Bool
  reason : Option String
  upgradeMessage : Option String
  deriving DecidableEq, Repr

/-- `MemoLimitStatus` returned by `getMemoLimitStatus`. -/
structure MemoLimitStatus where
  currentCount : Int
  maxCount : Int
  canCreate : Bool
  remainingSlots : Int
  nearLimit : Bool
  deriving DecidableEq, Repr

/-- `LicenseValidationResult` returned by `activateLicense` / `validateLicense`. -/
structure LicenseValidationResult where
  isValid : Bool
  licenseType : String
  limits : LicenseLimits
  error : Option String
  deriving DecidableEq, Repr

/-- `LicenseActivationRequest` input of `activateLicense`. -/
structure LicenseActivationRequest where
  licenseKey : String
  deviceId : String
  email : Option String
  deriving DecidableEq, Repr

/-- `FEATURE_DEFINITIONS.FREE_TIER` of LicenseService.ts. -/
def FREE_TIER_FEATURES : List String :=
  ["basic_notes", "simple_positioning", "basic_theming"]

/-- `FEATURE_DEFINITIONS.PAID_TIER` of LicenseService.ts. -/
def PAID_TIER_FEATURES : List String :=
  ["basic_notes", "simple_positioning", "basic_theming",
   "advanced_formatting", "cloud_sync", "premium_themes",
   "export_features", "advanced_search"]

/-- JavaScript whitespace test used by `String.prototype.trim`. -/
def isJsSpace (c : Char) : Bool :=
  c == ' ' || c == '\t' || c == '\n' || c == '\r'

/-- `key.trim()` : strip leading and trailing whitespace. -/
def jsTrim (s : String) : String :=
  String.mk (((s.toList.dropWhile isJsSpace).reverse.dropWhile isJsSpace).reverse)

/-- `[A-Z0-9]` character class of the license-key patterns. -/
def isUpperOrDigit (c : Char) : Bool :=
  (c.isUpper || c.isDigit)

/-- Matching one entry of `LICENSE_KEY_PATTERNS`:
`^<pre>\d{4}-[A-Z0-9]{12}$` where `pre` already includes the first dash
(e.g. `"STANDARD-"`).  After the prefix the key must consist of exactly four
digits, a dash, and twelve characters in `[A-Z0-9]`. -/
def matchesKeyPattern (pre : String) (key : String) : Bool :=
  let cs := key.toList
  let ps := pre.toList
  ps.isPrefixOf cs &&
    (let rest := cs.drop ps.length
     rest.length == 17 && (rest.take 4).all Char.isDigit &&
       rest.get? 4 == some '-' && (rest.drop 5).all isUpperOrDigit)

/-- `validateLicenseKeyFormat` of LicenseService.ts: try the three patterns
in declaration order (STANDARD, STUDENT, ENTERPRISE) and return the matching
tier name lower-cased, `none` when no pattern matches. -/
def validateLicenseKeyFormat (licenseKey : String) : Option String :=
  if matchesKeyPattern "STANDARD-" licenseKey then some "standard"
  else if matchesKeyPattern "STUDENT-" licenseKey then some "student"
  else if matchesKeyPattern "ENTERPRISE-" licenseKey then some "enterprise"
  else none

/-- Substring containment on character lists: `sub` occurs contiguously. -/
def containsChars (sub : List Char) : List Char → Bool
  | [] => sub.isEmpty
  | c :: cs => sub.isPrefixOf (c :: cs) || containsChars sub cs

/-- `key.includes(sub)` : substring containment on the character list. -/
def jsIncludes (s : String) (sub : String) : Bool :=
  containsChars sub.toList s.toList

/-- The `switch (this.currentLicense.licenseType)` body of
`getLicenseLimits`: free and unknown tiers get the free limits, the three
paid tiers get unlimited memos and the paid feature list. -/
def limitsForType (t : String) : LicenseLimits :=
  if t == "free" then
    { maxMemos := 10, maxConcurrentMemos := -1, featuresEnabled := FREE_TIER_FEATURES }
  else if t == "standard" || t == "student" || t == "enterprise" then
    { maxMemos := -1, maxConcurrentMemos := -1, featuresEnabled := PAID_TIER_FEATURES }
  else
    { maxMemos := 10, maxConcurrentMemos := -1, featuresEnabled := FREE_TIER_FEATURES }

/-- One entry of the per-service feature cache: feature name, cached
result, `Date.now()` timestamp at caching time. -/
abbrev FeatureCache := List (String × FeatureAvailability × Int)

/-- In-memory state of a `LicenseService` instance. -/
structure LicenseServiceState where
  isInitialized : Bool
  currentLicense : Option License
  deviceId : Option String
  featureCache : FeatureCache
  deriving DecidableEq, Repr

/-- `CACHE_TTL` of LicenseService.ts: five minutes in milliseconds. -/
def SERVICE_CACHE_TTL : Int := 5 * 60 * 1000

/-- `Map.get` on the feature cache. -/
def cacheFind (cache : FeatureCache) (k : String) : Option (FeatureAvailability × Int) :=
  (cache.find? (fun e => e.1 == k)).map (fun e => e.2)

/-- `Map.set` on the feature cache (overwrite any entry with the same key). -/
def cacheSet (cache : FeatureCache) (k : String) (v : FeatureAvailability) (ts : Int) :
    FeatureCache :=
  (k, v, ts) :: cache.filter (fun e => !(e.1 == k))

/-- The `SERVICE_NOT_INITIALIZED` error thrown by every guarded operation. -/
def notInitializedError : LicenseError :=
  ⟨.SERVICE_NOT_INITIALIZED, "License service not initialized"⟩

/-- `getLicenseInfo`: defensive copy of the current license, or
`SERVICE_NOT_INITIALIZED`. -/
def getLicenseInfo (st : LicenseServiceState) : Except LicenseError License :=
  match st.isInitialized, st.currentLicense with
  | true, some lic => .ok lic
  | _, _ => .error notInitializedError

/-- `getLicenseLimits`: limits for the current license type, or
`SERVICE_NOT_INITIALIZED`. -/
def getLicenseLimits (st : LicenseServiceState) : Except LicenseError LicenseLimits :=
  match st.isInitialized, st.currentLicense with
  | true, some lic => .ok (limitsForType lic.licenseType)
  | _, _ => .error notInitializedError

/-- A raw JavaScript error: either a typed `LicenseError` or an untyped
`Error` (carrying only its message), as distinguished by
`error instanceof LicenseError` in the catch blocks. -/
abbrev RawError := Sum LicenseError String

/-- Options argument of `canCreateMemo`. -/
structure CanCreateOptions where
  fallbackToConservative : Bool := false
  deriving DecidableEq, Repr

/-- The `try` body of `canCreateMemo`: initialization guard, limits lookup,
unlimited shortcut, then the repository count comparison.  `countResult` is
the outcome of `databaseService.getMemoCount()` at call time. -/
def canCreateMemoBody (st : LicenseServiceState) (countResult : Except String Nat) :
    Except RawError Bool :=
  match st.isInitialized, st.currentLicense with
  | true, some lic =>
    let limits := limitsForType lic.licenseType
    if limits.maxMemos == -1 then .ok true
    else
      match countResult with
      | .error e => .error (.inr e)
      | .ok currentCount => .ok (decide ((currentCount : Int) < limits.maxMemos))
  | _, _ => .error (.inl notInitializedError)

/-- `canCreateMemo`: runs the body; the catch block returns `false` under
`fallbackToConservative`, rethrows `LicenseError`s, and wraps any other
error as `DATABASE_ERROR`. -/
def canCreateMemo (st : LicenseServiceState) (options : CanCreateOptions)
    (countResult : Except String Nat) : Except LicenseError Bool :=
  match canCreateMemoBody st countResult with
  | .ok b => .ok b
  | .error e =>
    if options.fallbackToConservative then .ok false
    else
      match e with
      | .inl le => .error le
      | .inr _ => .error ⟨.DATABASE_ERROR, "Failed to retrieve memo count"⟩

/-- `enforceCanCreateMemo`: throws `MEMO_LIMIT_EXCEEDED` when
`canCreateMemo()` (no options) reports `false`. -/
def enforceCanCreateMemo (st : LicenseServiceState) (countResult : Except String Nat) :
    Except LicenseError Unit :=
  match canCreateMemo st {} countResult with
  | .ok true => .ok ()
  | .ok false =>
    .error ⟨.MEMO_LIMIT_EXCEEDED, "Cannot create memo: free tier limit of 10 memos reached"⟩
  | .error e => .error e

/-- The `try` body of `getMemoLimitStatus`. -/
def getMemoLimitStatusBody (st : LicenseServiceState) (countResult : Except String Nat) :
    Except RawError MemoLimitStatus :=
  match st.isInitialized, st.currentLicense with
  | true, some lic =>
    let limits := limitsForType lic.licenseType
    match countResult with
    | .error e => .error (.inr e)
    | .ok currentCount =>
      .ok { currentCount := (currentCount : Int)
            maxCount := limits.maxMemos
            canCreate := limits.maxMemos == -1 || decide ((currentCount : Int) < limits.maxMemos)
            remainingSlots :=
              if limits.maxMemos == -1 then -1 else max 0 (limits.maxMemos - (currentCount : Int))
            nearLimit :=
              limits.maxMemos != -1 && decide ((limits.maxMemos - 2 : Int) ≤ (currentCount : Int)) }
  | _, _ => .error (.inl notInitializedError)

/-- `getMemoLimitStatus`: runs the body; the catch block rethrows
`LicenseError`s and wraps any other error as `DATABASE_ERROR` (no
conservative fallback on this path). -/
def getMemoLimitStatus (st : LicenseServiceState) (countResult : Except String Nat) :
    Except LicenseError MemoLimitStatus :=
  match getMemoLimitStatusBody st countResult with
  | .ok s => .ok s
  | .error (.inl le) => .error le
  | .error (.inr _) => .error ⟨.DATABASE_ERROR, "Failed to retrieve memo count"⟩

/-- `feature.replace('_', ' ')`: replace the first underscore only, as the
JavaScript `String.prototype.replace` with a string pattern does. -/
def replaceFirstUnderscoreChars : List Char → List Char
  | [] => []
  | c :: cs => if c == '_' then ' ' :: cs else c :: replaceFirstUnderscoreChars cs

/-- String version of the single-underscore replacement. -/
def replaceFirstUnderscore (s : String) : String :=
  String.mk (replaceFirstUnderscoreChars s.toList)

/-- `checkFeatureAvailability`: initialization guard, per-service cache
lookup with the five-minute TTL, and on a miss the availability record is
computed from the current limits, cached at time `now`, and returned.
`now` stands for `Date.now()` during this call. -/
def checkFeatureAvailability (st : LicenseServiceState) (feature : String) (now : Int) :
    Except LicenseError (LicenseServiceState × FeatureAvailability) :=
  match st.isInitialized, st.currentLicense with
  | true, some lic =>
    let fresh :=
      let limits := limitsForType lic.licenseType
      let isAvailable := limits.featuresEnabled.contains feature
      let availability : FeatureAvailability :=
        { feature := feature
          available := isAvailable
          reason := if isAvailable then none else some "license_required"
          upgradeMessage :=
            if isAvailable then none
            else some ("Upgrade to access " ++ replaceFirstUnderscore feature) }
      ({ st with featureCache := cacheSet st.featureCache feature availability now },
        availability)
    match cacheFind st.featureCache feature with
    | some (result, ts) => if now - ts < SERVICE_CACHE_TTL then .ok (st, result) else .ok fresh
    | none => .ok fresh
  | _, _ => .error notInitializedError

/-- `requireFeature`: checks availability and throws
`FEATURE_NOT_AVAILABLE` when the feature is not available. -/
def requireFeature (st : LicenseServiceState) (feature : String) (now : Int) :
    Except LicenseError LicenseServiceState :=
  match checkFeatureAvailability st feature now with
  | .error e => .error e
  | .ok (st1, availability) =>
    if availability.available then .ok st1
    else .error ⟨.FEATURE_NOT_AVAILABLE, "Feature " ++ feature ++ " requires paid license"⟩

/-- `validateLicense`: current validity, tier and limits; no key re-parsing. -/
def validateLicense (st : LicenseServiceState) : Except LicenseError LicenseValidationResult :=
  match st.isInitialized, st.currentLicense with
  | true, some lic =>
    .ok { isValid := lic.isValid
          licenseType := lic.licenseType
          limits := limitsForType lic.licenseType
          error := none }
  | _, _ => .error notInitializedError

/-- `deactivateLicense`: initialization guard, then unconditional reset to
the free-tier license record and cache clear. -/
def deactivateLicense (st : LicenseServiceState) :
    Except LicenseError LicenseServiceState :=
  if st.isInitialized then
    .ok { st with
          currentLicense := some
            { licenseKey := none
              licenseType := "free"
              activationDate := none
              lastVerification := none
              gracePeriodStart := none
              deviceId := st.deviceId.getD ""
              isValid := true
              daysUntilExpiry := none }
          featureCache := [] }
  else .error notInitializedError

/-- `activateLicense`: input validation, key-format classification,
simulated expiry check, then wholesale commit of the new license record and
cache clear.  Returns the post-call state along with the validation result;
the two no-mutation paths return the input state unchanged.  `now` stands
for `new Date()` at commit time. -/
def activateLicense (st : LicenseServiceState) (request : LicenseActivationRequest)
    (now : Int) : Except LicenseError (LicenseServiceState × LicenseValidationResult) :=
  if request.licenseKey == "" || jsTrim request.licenseKey == "" then
    .error ⟨.INVALID_LICENSE_KEY, "License key cannot be empty"⟩
  else if request.deviceId == "" || !(st.deviceId == some request.deviceId) then
    .error ⟨.INVALID_LICENSE_KEY, "Invalid device ID"⟩
  else
    match validateLicenseKeyFormat request.licenseKey with
    | none =>
      match getLicenseLimits st with
      | .error e => .error e
      | .ok limits =>
        .ok (st, { isValid := false, licenseType := "free", limits := limits,
                   error := some "Invalid license key format" })
    | some licenseType =>
      if jsIncludes request.licenseKey "EXPIRED" then
        match getLicenseLimits st with
        | .error e => .error e
        | .ok limits =>
          .ok (st, { isValid := false, licenseType := "free", limits := limits,
                     error := some "License key has expired" })
      else
        let newLicense : License :=
          { licenseKey := some request.licenseKey
            licenseType := licenseType
            activationDate := some now
            lastVerification := some now
            gracePeriodStart := none
            deviceId := st.deviceId.getD ""
            isValid := true
            daysUntilExpiry := if licenseType == "student" then some 365 else none }
        let st1 := { st with currentLicense := some newLicense, featureCache := [] }
        match getLicenseLimits st1 with
        | .error e => .error e
        | .ok limits =>
          .ok (st1, { isValid := true, licenseType := licenseType, limits := limits,
                      error := none })

/-! ### Device identifier generation (LicenseService.generateDeviceId) -/

/-- The ambient OS environment consulted by `generateDeviceId`: each query
(`os.hostname()`, `os.platform()`, `os.arch()`, `os.homedir()`,
`os.userInfo().username`) either yields a string or fails with an error
message. -/
structure OsEnvironment where
  hostname : Except String String
  platform : Except String String
  arch : Except String String
  homedir : Except String String
  username : Except String String
  deriving DecidableEq, Repr

/-- `JSON.stringify(systemInfo)` for the five-field record built inside
`generateDeviceId`. -/
def systemInfoJson (h p a hd u : String) : String :=
  "\x7b\"hostname\":\"" ++ h ++ "\",\"platform\":\"" ++ p ++ "\",\"arch\":\""
    ++ a ++ "\",\"homedir\":\"" ++ hd ++ "\",\"userInfo\":\"" ++ u ++ "\"\x7d"

/-- `generateDeviceId`: queries the five OS attributes (any failure
propagates — the source has no try/catch here), hashes their JSON
serialization with the injected hex digest (`sha256 … digest('hex')`,
which yields a 64-character hex string) and reformats the first 32 hex
characters into the 8-4-4-4-12 UUID grouping. -/
def generateDeviceId (hexDigest : String → String) (env : OsEnvironment) :
    Except String String := do
  let h ← env.hostname
  let p ← env.platform
  let a ← env.arch
  let hd ← env.homedir
  let u ← env.username
  let hash := (hexDigest (systemInfoJson h p a hd u)).toList
  .ok (String.mk (hash.take 8) ++ "-" ++ String.mk ((hash.drop 8).take 4) ++ "-"
        ++ String.mk ((hash.drop 12).take 4) ++ "-" ++ String.mk ((hash.drop 16).take 4)
        ++ "-" ++ String.mk ((hash.drop 20).take 12))

/-! ### FeatureGate (src/shared/license/FeatureGate.ts) -/

/-- Error codes of `FeatureGateErrorCode`. -/
inductive FeatureGateErrorCode where
  | INVALID_FEATURE_NAME
  | INVALID_LICENSE_SERVICE
  | FEATURE_REQUIRED_BUT_UNAVAILABLE
  | LICENSE_SERVICE_ERROR
  deriving DecidableEq, Repr

/-- `FeatureGateError`: code plus message. -/
structure FeatureGateError where
  code : FeatureGateErrorCode
  message : String
  deriving DecidableEq, Repr

/-- `FeatureGateOptions`. -/
structure FeatureGateOptions where
  fallbackToConservative : Bool := false
  retryCount : Option Nat := none
  deriving DecidableEq, Repr

/-- The behaviour of the `LicenseService` collaborator as FeatureGate sees
it: `getDeviceId()` may throw; `checkFeatureAvailability` is given the
attempt index so that the retry loop can observe transient failures;
`requireFeature` may throw.  Raw (non-`FeatureGateError`) errors are
modelled by their message. -/
structure GateService where
  getDeviceId : Except String String
  checkFeature : Nat → String → Except String FeatureAvailability
  requireFeatureCall : String → Except String Unit

/-- The static FeatureGate cache: key `feature + "_" + deviceId`, value and
`Date.now()` timestamp. -/
abbrev GateCache := List (String × FeatureAvailability × Int)

/-- FeatureGate `CACHE_TTL`: one minute in milliseconds. -/
def GATE_CACHE_TTL : Int := 60 * 1000

/-- The `INVALID_FEATURE_NAME` validation error. -/
def invalidFeatureNameError : FeatureGateError :=
  ⟨.INVALID_FEATURE_NAME, "Feature name cannot be empty"⟩

/-- The `INVALID_LICENSE_SERVICE` validation error. -/
def invalidLicenseServiceError : FeatureGateError :=
  ⟨.INVALID_LICENSE_SERVICE, "License service is required"⟩

/-- `FeatureGate.validateInputs`: the feature name must be a non-empty,
non-whitespace string (checked first), the license service non-null. -/
def validateInputs (feature : String) (licenseService : Option GateService) :
    Except FeatureGateError Unit :=
  if feature == "" || jsTrim feature == "" then .error invalidFeatureNameError
  else if licenseService.isNone then .error invalidLicenseServiceError
  else .ok ()

/-- The retry loop of `FeatureGate.getAvailability`: attempt `attempt`,
then up to `remaining` further attempts after failures; the error of the
last attempt is the one thrown. -/
def retryLoop (check : Nat → Except String FeatureAvailability) :
    Nat → Nat → Except String FeatureAvailability
  | 0, attempt => check attempt
  | remaining + 1, attempt =>
    match check attempt with
    | .ok r => .ok r
    | .error _ => retryLoop check remaining (attempt + 1)

/-- `FeatureGate.getAvailability`: input validation, cache lookup keyed by
`feature + "_" + deviceId` with the 60-second TTL, then the retry loop over
`licenseService.checkFeatureAvailability`; any raw failure (including a
throwing `getDeviceId`) is wrapped as `LICENSE_SERVICE_ERROR`.  Returns the
(possibly updated) cache with the result. -/
def getAvailability (feature : String) (licenseService : Option GateService)
    (options : FeatureGateOptions) (cache : GateCache) (now : Int) :
    Except FeatureGateError (GateCache × FeatureAvailability) :=
  match validateInputs feature licenseService with
  | .error e => .error e
  | .ok _ =>
    match licenseService with
    | none => .error invalidLicenseServiceError
    | some svc =>
      let wrapped : FeatureGateError :=
        ⟨.LICENSE_SERVICE_ERROR, "Failed to get availability for feature: " ++ feature⟩
      match svc.getDeviceId with
      | .error _ => .error wrapped
      | .ok deviceId =>
        let cacheKey := feature ++ "_" ++ deviceId
        let fresh : Except FeatureGateError (GateCache × FeatureAvailability) :=
          match retryLoop (fun i => svc.checkFeature i feature)
              (options.retryCount.getD 0) 0 with
          | .ok result => .ok (cacheSet cache cacheKey result now, result)
          | .error _ => .error wrapped
        match cacheFind cache cacheKey with
        | some (result, ts) =>
          if now - ts < GATE_CACHE_TTL then .ok (cache, result) else fresh
        | none => fresh

/-- `FeatureGate.isAvailable`: validates, delegates to `getAvailability`
and projects the boolean; its catch block returns `false` whenever
`fallbackToConservative` is set, and otherwise rethrows the
`FeatureGateError`. -/
def isAvailable (feature : String) (licenseService : Option GateService)
    (options : FeatureGateOptions) (cache : GateCache) (now : Int) :
    Except FeatureGateError (GateCache × Bool) :=
  let attempt : Except FeatureGateError (GateCache × Bool) :=
    match validateInputs feature licenseService with
    | .error e => .error e
    | .ok _ =>
      match getAvailability feature licenseService options cache now with
      | .ok (cache1, availability) => .ok (cache1, availability.available)
      | .error e => .error e
  match attempt with
  | .ok r => .ok r
  | .error e => if options.fallbackToConservative then .ok (cache, false) else .error e

/-- `FeatureGate.requireFeature`: validates, then delegates to
`licenseService.requireFeature`; raw failures are wrapped as
`FEATURE_REQUIRED_BUT_UNAVAILABLE`. -/
def gateRequireFeature (feature : String) (licenseService : Option GateService) :
    Except FeatureGateError Unit :=
  match validateInputs feature licenseService with
  | .error e => .error e
  | .ok _ =>
    match licenseService with
    | none => .error invalidLicenseServiceError
    | some svc =>
      match svc.requireFeatureCall feature with
      | .ok _ => .ok ()
      | .error _ =>
        .error ⟨.FEATURE_REQUIRED_BUT_UNAVAILABLE,
                "Required feature \x27" ++ feature ++ "\x27 is not available"⟩

/-! ### Spec-side definitions used for refinement comparisons -/

/-- The availability computation as the specification words it:
the tier's feature set contains the feature, or it contains the catch-all
string `all_features`. -/
def specFeatureAvailable (limits : LicenseLimits) (feature : String) : Bool :=
  limits.featuresEnabled.contains feature || limits.featuresEnabled.contains "all_features"

/-! ### Sample fixtures used by witnesses and counterexamples -/

/-- A free-tier license record as `initialize()` creates it. -/
def sampleFreeLicense : License :=
  ⟨none, "free", none, none, none, "11111111-2222-3333-4444-555555555555", true, none⟩

/-- An initialized service holding the free-tier default license. -/
def sampleFreeState : LicenseServiceState :=
  ⟨true, some sampleFreeLicense, some "11111111-2222-3333-4444-555555555555", []⟩

/-- A service on which `initialize()` has never completed. -/
def sampleUninitState : LicenseServiceState := ⟨false, none, none, []⟩

/-- A license-service collaborator whose checks always fail, for exercising
the FeatureGate validation paths. -/
def sampleGateService : GateService :=
  ⟨.ok "11111111-2222-3333-4444-555555555555",
   fun _ _ => .error "service unavailable",
   fun _ => .error "service unavailable"⟩

/-- A stand-in for the SHA-256 hex digest: any 64-character hex output. -/
def sampleHexDigest : String → String :=
  fun _ => "0123456789abcdef0123456789abcdef0123456789abcdef0123456789abcdef"

/-- An environment where all five OS queries succeed. -/
def sampleOsEnvironment : OsEnvironment :=
  ⟨.ok "host", .ok "linux", .ok "x64", .ok "/home/user", .ok "user"⟩

/-! ### Helper lemmas -/

/-- A key matching a pattern starts with that pattern's literal head. -/
theorem matchesKeyPattern_isPrefix {pre key : String}
    (h : matchesKeyPattern pre key = true) : pre.toList <+: key.toList := by
  simp only [matchesKeyPattern, Bool.and_eq_true] at h
  exact List.isPrefixOf_iff_prefix.mp h.1

/-- Two patterns matching the same key force the shorter pattern head to be
a prefix of the longer one. -/
theorem matchesKeyPattern_heads {p1 p2 key : String}
    (h1 : matchesKeyPattern p1 key = true) (h2 : matchesKeyPattern p2 key = true)
    (hle : p1.toList.length ≤ p2.toList.length) : p1.toList <+: p2.toList :=
  List.prefix_of_prefix_length_le (matchesKeyPattern_isPrefix h1)
    (matchesKeyPattern_isPrefix h2) hle

/-- No tier's feature list contains the catch-all string `all_features`. -/
theorem all_features_not_enabled (t : String) :
    (limitsForType t).featuresEnabled.contains "all_features" = false := by
  unfold limitsForType
  split
  · decide
  · split <;> decide

/-- `jsTrim` of the empty string is empty. -/
theorem jsTrim_empty : jsTrim "" = "" := rfl

/-- The length of a string built from a character list. -/
theorem string_length_mk (l : List Char) : (String.mk l).length = l.length := rfl

/-- The length of the literal dash separator. -/
theorem dash_length : ("-" : String).length = 1 := rfl

/-- A tier produced by key classification is one of the three paid tiers. -/
theorem validateLicenseKeyFormat_paid {key t : String}
    (h : validateLicenseKeyFormat key = some t) :
    t = "standard" ∨ t = "student" ∨ t = "enterprise" := by
  unfold validateLicenseKeyFormat at h
  split at h
  · simp_all
  · split at h
    · simp_all
    · split at h <;> simp_all

/-! ### Claim theorems -/

/-- C7: license-key classification is a pure function of the key string:
a key matching `^STANDARD-\d{4}-[A-Z0-9]{12}$` classifies as `standard`,
`^STUDENT-\d{4}-[A-Z0-9]{12}$` as `student`,
`^ENTERPRISE-\d{4}-[A-Z0-9]{12}$` as `enterprise`, and any key matching
none of the three patterns classifies as invalid (`none`). -/
theorem license_key_classification (key : String) :
    (matchesKeyPattern "STANDARD-" key = true →
        validateLicenseKeyFormat key = some "standard") ∧
    (matchesKeyPattern "STUDENT-" key = true →
        validateLicenseKeyFormat key = some "student") ∧
    (matchesKeyPattern "ENTERPRISE-" key = true →
        validateLicenseKeyFormat key = some "enterprise") ∧
    (matchesKeyPattern "STANDARD-" key = false →
      matchesKeyPattern "STUDENT-" key = false →
      matchesKeyPattern "ENTERPRISE-" key = false →
      validateLicenseKeyFormat key = none) := by
  refine ⟨?_, ?_, ?_, ?_⟩
  · intro h
    simp [validateLicenseKeyFormat, h]
  · intro h
    cases hstd : matchesKeyPattern "STANDARD-" key with
    | false => simp [validateLicenseKeyFormat, h, hstd]
    | true => exact absurd (matchesKeyPattern_heads h hstd (by decide)) (by decide)
  · intro h
    cases hstd : matchesKeyPattern "STANDARD-" key with
    | true => exact absurd (matchesKeyPattern_heads hstd h (by decide)) (by decide)
    | false =>
      cases hstu : matchesKeyPattern "STUDENT-" key with
      | true => exact absurd (matchesKeyPattern_heads hstu h (by decide)) (by decide)
      | false => simp [validateLicenseKeyFormat, h, hstd, hstu]
  · intro h1 h2 h3
    simp [validateLicenseKeyFormat, h1, h2, h3]

/-- Witness for C7: the classification evaluated on a concrete
standard-tier key. -/
theorem license_key_classification_witness :
    validateLicenseKeyFormat "STANDARD-2024-ABC123DEF456" = some "standard" :=
  (license_key_classification "STANDARD-2024-ABC123DEF456").1 (by decide)

/-- C8: `getLicenseLimits` is determined solely by the current license
type: `free` yields `maxMemos = 10`, `maxConcurrentMemos = -1` and the
three basic features; each paid tier yields `maxMemos = -1`,
`maxConcurrentMemos = -1` and the basic features plus the five advanced
ones; any other tier value yields the free-tier limits. -/
theorem license_limits_table (st : LicenseServiceState) (lic : License)
    (hin : st.isInitialized = true) (hlic : st.currentLicense = some lic) :
    getLicenseLimits st = .ok (limitsForType lic.licenseType) ∧
    limitsForType "free" =
      { maxMemos := 10, maxConcurrentMemos := -1,
        featuresEnabled := ["basic_notes", "simple_positioning", "basic_theming"] } ∧
    limitsForType "standard" =
      { maxMemos := -1, maxConcurrentMemos := -1,
        featuresEnabled := ["basic_notes", "simple_positioning", "basic_theming",
          "advanced_formatting", "cloud_sync", "premium_themes", "export_features",
          "advanced_search"] } ∧
    limitsForType "student" = limitsForType "standard" ∧
    limitsForType "enterprise" = limitsForType "standard" ∧
    (∀ t : String, t ≠ "free" → t ≠ "standard" → t ≠ "student" → t ≠ "enterprise" →
      limitsForType t = limitsForType "free") := by
  obtain ⟨i, clic, dev, cache⟩ := st
  simp only at hin hlic
  subst hin; subst hlic
  refine ⟨rfl, by decide, by decide, by decide, by decide, ?_⟩
  intro t h1 h2 h3 h4
  have e1 : (t == "free") = false := beq_eq_false_iff_ne.mpr h1
  have e2 : (t == "standard") = false := beq_eq_false_iff_ne.mpr h2
  have e3 : (t == "student") = false := beq_eq_false_iff_ne.mpr h3
  have e4 : (t == "enterprise") = false := beq_eq_false_iff_ne.mpr h4
  simp [limitsForType, e1, e2, e3, e4]

/-- Witness for C8: the limits of the concrete initialized free-tier
service. -/
theorem license_limits_table_witness :
    getLicenseLimits sampleFreeState = .ok (limitsForType sampleFreeLicense.licenseType) :=
  (license_limits_table sampleFreeState sampleFreeLicense rfl rfl).1

/-- C1: on the free tier `canCreateMemo()` returns `true` iff the
repository count is strictly below 10; on every paid tier it returns
`true` immediately, regardless of the repository outcome. -/
theorem canCreateMemo_policy (st : LicenseServiceState) (lic : License)
    (hin : st.isInitialized = true) (hlic : st.currentLicense = some lic) :
    (lic.licenseType = "free" →
      ∀ n : Nat, (canCreateMemo st {} (.ok n) = .ok true ↔ n < 10)) ∧
    ((lic.licenseType = "standard" ∨ lic.licenseType = "student" ∨
        lic.licenseType = "enterprise") →
      ∀ countResult : Except String Nat, canCreateMemo st {} countResult = .ok true) := by
  obtain ⟨i, clic, dev, cache⟩ := st
  simp only at hin hlic
  subst hin; subst hlic
  constructor
  · intro hfree n
    simp [canCreateMemo, canCreateMemoBody, limitsForType, hfree]
  · intro hpaid countResult
    rcases hpaid with h | h | h <;>
      simp [canCreateMemo, canCreateMemoBody, limitsForType, h]

/-- Witness for C1: at count 9 the concrete free-tier service still allows
creation. -/
theorem canCreateMemo_policy_witness :
    canCreateMemo sampleFreeState {} (.ok 9) = .ok true :=
  ((canCreateMemo_policy sampleFreeState sampleFreeLicense rfl rfl).1 rfl 9).mpr
    (by decide)

/-- C2: on an initialized service, a non-empty license key carrying the
matching device id but matching none of the tier patterns makes
`activateLicense` return `isValid := false`, `licenseType := "free"` and
the error `Invalid license key format`, leaving the stored license record
unchanged: the post-call state is the pre-call state, so a subsequent
`getLicenseInfo` still returns the record held before the call. -/
theorem activateLicense_invalid_format (st : LicenseServiceState) (lic : License)
    (d : String) (request : LicenseActivationRequest) (now : Int)
    (hin : st.isInitialized = true) (hlic : st.currentLicense = some lic)
    (hdev : st.deviceId = some d) (hd : d ≠ "")
    (hkey : jsTrim request.licenseKey ≠ "") (hreq : request.deviceId = d)
    (hfmt : validateLicenseKeyFormat request.licenseKey = none) :
    activateLicense st request now =
      .ok (st, { isValid := false, licenseType := "free",
                 limits := limitsForType lic.licenseType,
                 error := some "Invalid license key format" }) ∧
    getLicenseInfo st = .ok lic := by
  have hkne : request.licenseKey ≠ "" := by
    intro h0
    exact hkey (h0 ▸ jsTrim_empty)
  have e1 : (request.licenseKey == "") = false := beq_eq_false_iff_ne.mpr hkne
  have e2 : (jsTrim request.licenseKey == "") = false := beq_eq_false_iff_ne.mpr hkey
  have e3 : (request.deviceId == "") = false := beq_eq_false_iff_ne.mpr (hreq ▸ hd)
  obtain ⟨i, clic, dev, cache⟩ := st
  simp only at hin hlic hdev
  subst hin; subst hlic; subst hdev
  constructor
  · simp [activateLicense, e1, e2, e3, hreq, hfmt, getLicenseLimits, hd]
  · rfl

/-- Witness for C2: the concrete free-tier service rejects the key
`INVALID-FORMAT` without mutating state. -/
theorem activateLicense_invalid_format_witness :
    activateLicense sampleFreeState
        ⟨"INVALID-FORMAT", "11111111-2222-3333-4444-555555555555", none⟩ 0 =
      .ok (sampleFreeState,
           { isValid := false, licenseType := "free",
             limits := limitsForType sampleFreeLicense.licenseType,
             error := some "Invalid license key format" }) :=
  (activateLicense_invalid_format sampleFreeState sampleFreeLicense
      "11111111-2222-3333-4444-555555555555"
      ⟨"INVALID-FORMAT", "11111111-2222-3333-4444-555555555555", none⟩ 0
      rfl rfl rfl (by decide) (by decide) rfl (by decide)).1

/-- C3: on a miss of the per-service cache, `checkFeatureAvailability`
computes availability as the spec's disjunction (feature in the tier's
feature set, or `all_features` in the set), builds the availability record
with reason `license_required` and an upgrade message derived from the
feature name when unavailable, stores it in the cache, and returns it. -/
theorem checkFeatureAvailability_miss (st : LicenseServiceState) (lic : License)
    (feature : String) (now : Int)
    (hin : st.isInitialized = true) (hlic : st.currentLicense = some lic)
    (hmiss : ∀ r ts, cacheFind st.featureCache feature = some (r, ts) →
      SERVICE_CACHE_TTL ≤ now - ts) :
    ∃ avail : FeatureAvailability,
      checkFeatureAvailability st feature now =
        .ok ({ st with featureCache := cacheSet st.featureCache feature avail now },
             avail) ∧
      avail.available = specFeatureAvailable (limitsForType lic.licenseType) feature ∧
      avail.feature = feature ∧
      avail.reason = (if avail.available then none else some "license_required") ∧
      avail.upgradeMessage = (if avail.available then none
        else some ("Upgrade to access " ++ replaceFirstUnderscore feature)) := by
  obtain ⟨i, clic, dev, cache⟩ := st
  simp only at hin hlic hmiss ⊢
  subst hin; subst hlic
  have havail : (limitsForType lic.licenseType).featuresEnabled.contains feature =
      specFeatureAvailable (limitsForType lic.licenseType) feature := by
    unfold specFeatureAvailable
    rw [all_features_not_enabled, Bool.or_false]
  refine ⟨{ feature := feature
            available := (limitsForType lic.licenseType).featuresEnabled.contains feature
            reason := if (limitsForType lic.licenseType).featuresEnabled.contains feature
              then none else some "license_required"
            upgradeMessage := if (limitsForType lic.licenseType).featuresEnabled.contains feature
              then none
              else some ("Upgrade to access " ++ replaceFirstUnderscore feature) },
         ?_, havail, rfl, rfl, rfl⟩
  simp only [checkFeatureAvailability]
  split
  next r ts heq =>
    have hts := hmiss r ts heq
    rw [if_neg (by omega)]
  next => rfl

/-- Witness for C3: checking `cloud_sync` on the concrete free-tier service
with an empty cache. -/
theorem checkFeatureAvailability_miss_witness :
    ∃ avail : FeatureAvailability,
      checkFeatureAvailability sampleFreeState "cloud_sync" 0 =
        .ok ({ sampleFreeState with
               featureCache := cacheSet sampleFreeState.featureCache "cloud_sync" avail 0 },
             avail) ∧
      avail.available =
        specFeatureAvailable (limitsForType sampleFreeLicense.licenseType) "cloud_sync" ∧
      avail.feature = "cloud_sync" ∧
      avail.reason = (if avail.available then none else some "license_required") ∧
      avail.upgradeMessage = (if avail.available then none
        else some ("Upgrade to access " ++ replaceFirstUnderscore "cloud_sync")) :=
  checkFeatureAvailability_miss sampleFreeState sampleFreeLicense "cloud_sync" 0 rfl rfl
    (by intro r ts h; simp [cacheFind, sampleFreeState] at h)

/-- C6: for an initialized service and repository count `n`,
`getMemoLimitStatus` reports `currentCount = n`, `maxCount` equal to the
tier's `maxMemos`, `remainingSlots = max 0 (maxCount - n)` when bounded and
`-1` when unbounded, `canCreate` iff unbounded or `n < maxCount`, and
`nearLimit` exactly when bounded and `maxCount - n ≤ 2`. -/
theorem getMemoLimitStatus_invariants (st : LicenseServiceState) (lic : License)
    (n : Nat) (hin : st.isInitialized = true) (hlic : st.currentLicense = some lic) :
    ∃ status : MemoLimitStatus,
      getMemoLimitStatus st (.ok n) = .ok status ∧
      status.currentCount = (n : Int) ∧
      status.maxCount = (limitsForType lic.licenseType).maxMemos ∧
      status.remainingSlots =
        (if status.maxCount = -1 then (-1 : Int) else max 0 (status.maxCount - (n : Int))) ∧
      (status.canCreate = true ↔ (status.maxCount = -1 ∨ (n : Int) < status.maxCount)) ∧
      (status.nearLimit = true ↔
        (status.maxCount ≠ -1 ∧ status.maxCount - (n : Int) ≤ 2)) := by
  obtain ⟨i, clic, dev, cache⟩ := st
  simp only at hin hlic
  subst hin; subst hlic
  refine ⟨_, rfl, rfl, rfl, ?_, ?_, ?_⟩
  · simp only [beq_iff_eq]
  · simp only [Bool.or_eq_true, beq_iff_eq, decide_eq_true_eq]
  · simp only [Bool.and_eq_true, bne_iff_ne, ne_eq, decide_eq_true_eq]
    constructor
    · rintro ⟨h1, h2⟩; exact ⟨h1, by omega⟩
    · rintro ⟨h1, h2⟩; exact ⟨h1, by omega⟩

/-- Witness for C6: the limit status of the concrete free-tier service at
count 8. -/
theorem getMemoLimitStatus_invariants_witness :
    ∃ status : MemoLimitStatus,
      getMemoLimitStatus sampleFreeState (.ok 8) = .ok status ∧
      status.currentCount = ((8 : Nat) : Int) ∧
      status.maxCount = (limitsForType sampleFreeLicense.licenseType).maxMemos ∧
      status.remainingSlots =
        (if status.maxCount = -1 then (-1 : Int)
         else max 0 (status.maxCount - ((8 : Nat) : Int))) ∧
      (status.canCreate = true ↔ (status.maxCount = -1 ∨ ((8 : Nat) : Int) < status.maxCount)) ∧
      (status.nearLimit = true ↔
        (status.maxCount ≠ -1 ∧ status.maxCount - ((8 : Nat) : Int) ≤ 2)) :=
  getMemoLimitStatus_invariants sampleFreeState sampleFreeLicense 8 rfl rfl

/-- C10: whenever `activateLicense` succeeds (`isValid = true`), the
committed license record carries the activated tier and has
`daysUntilExpiry = 365` for the `student` tier and none (null) otherwise —
and the activated tier is one of `standard`, `student`, `enterprise`. -/
theorem activateLicense_expiry_days (st : LicenseServiceState)
    (request : LicenseActivationRequest) (now : Int)
    (st1 : LicenseServiceState) (result : LicenseValidationResult)
    (h : activateLicense st request now = .ok (st1, result))
    (hv : result.isValid = true) :
    ∃ lic : License,
      st1.currentLicense = some lic ∧
      lic.licenseType = result.licenseType ∧
      (result.licenseType = "standard" ∨ result.licenseType = "student" ∨
        result.licenseType = "enterprise") ∧
      lic.daysUntilExpiry =
        (if result.licenseType == "student" then some (365 : Int) else none) := by
  unfold activateLicense at h
  split at h
  · simp at h
  · split at h
    · simp at h
    · split at h
      case _ hfmt =>
        split at h
        · simp at h
        · simp only [Except.ok.injEq, Prod.mk.injEq] at h
          obtain ⟨h1, h2⟩ := h
          subst h2
          simp at hv
      case _ t hfmt =>
        split at h
        · split at h
          · simp at h
          · simp only [Except.ok.injEq, Prod.mk.injEq] at h
            obtain ⟨h1, h2⟩ := h
            subst h2
            simp at hv
        · dsimp only at h
          split at h
          · exact Except.noConfusion h
          · split at h <;>
              (simp only [Except.ok.injEq, Prod.mk.injEq] at h
               obtain ⟨h1, h2⟩ := h
               subst h1
               subst h2
               refine ⟨_, rfl, rfl, validateLicenseKeyFormat_paid hfmt, ?_⟩
               simp_all)

/-- Witness for C10: activating a concrete student key commits a record
with a 365-day expiry. -/
theorem activateLicense_expiry_days_witness :
    ∃ lic : License,
      ({ sampleFreeState with
         currentLicense := some
           { licenseKey := some "STUDENT-2024-XYZ789ABC123"
             licenseType := "student"
             activationDate := some 7
             lastVerification := some 7
             gracePeriodStart := none
             deviceId := "11111111-2222-3333-4444-555555555555"
             isValid := true
             daysUntilExpiry := some 365 }
         featureCache := [] } : LicenseServiceState).currentLicense = some lic ∧
      lic.licenseType = "student" ∧
      ("student" = "standard" ∨ "student" = "student" ∨ "student" = "enterprise") ∧
      lic.daysUntilExpiry =
        (if ("student" : String) == "student" then some (365 : Int) else none) :=
  activateLicense_expiry_days sampleFreeState
    ⟨"STUDENT-2024-XYZ789ABC123", "11111111-2222-3333-4444-555555555555", none⟩ 7
    _ ⟨true, "student", limitsForType "student", none⟩ (by decide) rfl

/-- C4 counterexample: on an uninitialized service,
`canCreateMemo({fallbackToConservative: true})` returns the value `false`
instead of failing with `SERVICE_NOT_INITIALIZED` — the thrown
initialization error is swallowed by the conservative fallback in the
catch block. -/
theorem uninitialized_fallback_counterexample :
    canCreateMemo sampleUninitState ⟨true⟩ (.ok 0) = .ok false := rfl

/-- C4 (amended): on an uninitialized service every public operation other
than `initialize` fails with `SERVICE_NOT_INITIALIZED`, except that
`activateLicense` fails with `INVALID_LICENSE_KEY` (its input validation
runs before any initialization check and the null device id can never
match), and `canCreateMemo` with `fallbackToConservative` returns `false`
instead of failing. -/
theorem uninitialized_operations (st : LicenseServiceState)
    (hun : st.isInitialized = false) (hdev : st.deviceId = none) :
    getLicenseInfo st = .error notInitializedError ∧
    getLicenseLimits st = .error notInitializedError ∧
    deactivateLicense st = .error notInitializedError ∧
    validateLicense st = .error notInitializedError ∧
    (∀ feature now, checkFeatureAvailability st feature now = .error notInitializedError) ∧
    (∀ feature now, requireFeature st feature now = .error notInitializedError) ∧
    (∀ countResult, canCreateMemo st {} countResult = .error notInitializedError) ∧
    (∀ countResult, enforceCanCreateMemo st countResult = .error notInitializedError) ∧
    (∀ countResult, getMemoLimitStatus st countResult = .error notInitializedError) ∧
    (∀ countResult options, options.fallbackToConservative = true →
      canCreateMemo st options countResult = .ok false) ∧
    (∀ request now,
      activateLicense st request now =
          .error ⟨.INVALID_LICENSE_KEY, "License key cannot be empty"⟩ ∨
      activateLicense st request now =
          .error ⟨.INVALID_LICENSE_KEY, "Invalid device ID"⟩) := by
  obtain ⟨i, clic, dev, cache⟩ := st
  simp only at hun hdev
  subst hun; subst hdev
  refine ⟨?_, ?_, rfl, ?_, fun feature now => ?_, fun feature now => ?_,
    fun countResult => ?_, fun countResult => ?_, fun countResult => ?_,
    fun countResult options hopt => ?_, fun request now => ?_⟩
  · cases clic <;> rfl
  · cases clic <;> rfl
  · cases clic <;> rfl
  · cases clic <;> rfl
  · cases clic <;> simp [requireFeature, checkFeatureAvailability]
  · cases clic <;> simp [canCreateMemo, canCreateMemoBody]
  · cases clic <;> simp [enforceCanCreateMemo, canCreateMemo, canCreateMemoBody]
  · cases clic <;> simp [getMemoLimitStatus, getMemoLimitStatusBody]
  · cases clic <;> simp [canCreateMemo, canCreateMemoBody, hopt]
  · unfold activateLicense
    split
    · left; rfl
    · rw [if_pos (by simp)]
      right; rfl

/-- Witness for C4 (amended): `getLicenseInfo` on the concrete
uninitialized service fails with `SERVICE_NOT_INITIALIZED`. -/
theorem uninitialized_operations_witness :
    getLicenseInfo sampleUninitState = .error notInitializedError :=
  (uninitialized_operations sampleUninitState rfl rfl).1

/-- C5 counterexample: `FeatureGate.isAvailable` called with an empty
feature name and `fallbackToConservative: true` returns the boolean
`false` instead of throwing `INVALID_FEATURE_NAME` — the validation error
is converted into a conservative result by the catch block. -/
theorem featureGate_validation_counterexample :
    isAvailable "" (some sampleGateService) ⟨true, none⟩ [] 0 = .ok ([], false) := rfl

/-- C5 (amended): every FeatureGate entry point rejects an empty or
whitespace-only feature name with `INVALID_FEATURE_NAME`, and a null
license service with `INVALID_LICENSE_SERVICE`, before any cache lookup or
delegation (the result does not depend on the cache contents or the
service's behaviour) — except that `isAvailable` with
`fallbackToConservative: true` converts either validation error into the
conservative result `false`. -/
theorem featureGate_validation (feature : String) (cache : GateCache) (now : Int) :
    (∀ svc options, jsTrim feature = "" → options.fallbackToConservative = false →
      isAvailable feature svc options cache now = .error invalidFeatureNameError) ∧
    (∀ options, jsTrim feature ≠ "" → options.fallbackToConservative = false →
      isAvailable feature none options cache now = .error invalidLicenseServiceError) ∧
    (∀ svc options, jsTrim feature = "" →
      getAvailability feature svc options cache now = .error invalidFeatureNameError) ∧
    (∀ options, jsTrim feature ≠ "" →
      getAvailability feature none options cache now = .error invalidLicenseServiceError) ∧
    (∀ svc, jsTrim feature = "" →
      gateRequireFeature feature svc = .error invalidFeatureNameError) ∧
    (jsTrim feature ≠ "" →
      gateRequireFeature feature none = .error invalidLicenseServiceError) ∧
    (∀ svc options, (jsTrim feature = "" ∨ svc = none) →
      options.fallbackToConservative = true →
      isAvailable feature svc options cache now = .ok (cache, false)) := by
  have hval1 : ∀ svc, jsTrim feature = "" →
      validateInputs feature svc = .error invalidFeatureNameError := by
    intro svc h
    simp [validateInputs, h]
  have hval2 : jsTrim feature ≠ "" →
      validateInputs feature none = .error invalidLicenseServiceError := by
    intro h
    have hne : feature ≠ "" := fun h0 => h (h0 ▸ jsTrim_empty)
    simp [validateInputs, beq_eq_false_iff_ne.mpr hne, beq_eq_false_iff_ne.mpr h]
  refine ⟨?_, ?_, ?_, ?_, ?_, ?_, ?_⟩
  · intro svc options h hopt
    simp [isAvailable, hval1 svc h, hopt]
  · intro options h hopt
    simp [isAvailable, getAvailability, hval2 h, hopt]
  · intro svc options h
    simp [getAvailability, hval1 svc h]
  · intro options h
    simp [getAvailability, hval2 h]
  · intro svc h
    simp [gateRequireFeature, hval1 svc h]
  · intro h
    simp [gateRequireFeature, hval2 h]
  · intro svc options h hopt
    rcases h with h | h
    · simp [isAvailable, hval1 svc h, hopt]
    · subst h
      cases hfe : (jsTrim feature == "") with
      | false => simp [isAvailable, getAvailability, hval2 (beq_eq_false_iff_ne.mp hfe), hopt]
      | true => simp [isAvailable, hval1 none (beq_iff_eq.mp hfe), hopt]

/-- Witness for C5 (amended): a whitespace-only feature name is rejected by
`getAvailability` on the concrete service with an empty cache. -/
theorem featureGate_validation_witness :
    getAvailability " " (some sampleGateService) ⟨false, none⟩ [] 0 =
      .error invalidFeatureNameError :=
  (featureGate_validation " " [] 0).2.2.1 (some sampleGateService) ⟨false, none⟩ rfl

/-- C9 counterexample: in an environment where the hostname query fails,
`generateDeviceId` propagates the failure instead of falling back to
empty-string components and returning an identifier. -/
theorem generateDeviceId_counterexample :
    generateDeviceId sampleHexDigest
        ⟨.error "hostname query failed", .ok "", .ok "", .ok "", .ok ""⟩ =
      .error "hostname query failed" := rfl

/-- C9 (amended): whenever all five OS queries succeed (and the hex digest
is at least 32 characters, as a SHA-256 hex digest always is),
`generateDeviceId` deterministically returns a 36-character UUID-formatted
identifier; an OS-query failure propagates instead of being replaced by
empty-string components. -/
theorem generateDeviceId_success (hexDigest : String → String) (env : OsEnvironment)
    (h p a hd u : String)
    (hh : env.hostname = .ok h) (hp : env.platform = .ok p) (ha : env.arch = .ok a)
    (hhd : env.homedir = .ok hd) (hu : env.username = .ok u)
    (hlen : 32 ≤ (hexDigest (systemInfoJson h p a hd u)).length) :
    ∃ s, generateDeviceId hexDigest env = .ok s ∧ s.length = 36 := by
  obtain ⟨eh, ep, ea, ehd, eu⟩ := env
  simp only at hh hp ha hhd hu
  subst hh; subst hp; subst ha; subst hhd; subst hu
  refine ⟨_, rfl, ?_⟩
  have hlist : 32 ≤ (hexDigest (systemInfoJson h p a hd u)).toList.length := hlen
  simp only [String.length_append, string_length_mk, List.length_take, List.length_drop,
    dash_length]
  omega

/-- Witness for C9 (amended): a concrete all-successful environment yields
a 36-character identifier. -/
theorem generateDeviceId_success_witness :
    ∃ s, generateDeviceId sampleHexDigest sampleOsEnvironment = .ok s ∧ s.length = 36 :=
  generateDeviceId_success sampleHexDigest sampleOsEnvironment
    "host" "linux" "x64" "/home/user" "user" rfl rfl rfl rfl rfl (by decide)

end RandomMemo
